import Mathlib

set_option autoImplicit false

/-!
Verification of the Odoo MCP remote-call client (`src/clients/odoo-client.ts`).
The TypeScript code is shallowly embedded: asynchronous remote calls become
explicit event values (a callback firing with an `(error, result)` pair, a
timer firing, a network fault), promise resolution becomes "first recorded
outcome wins", and the mutable `uid` field of the client becomes explicit
state passing.  JavaScript-specific semantics (truthiness, `parseInt`,
`String.includes`, first-match regular-expression search, `Set`
de-duplication) are modelled by small executable definitions.
-/

/-- The character `'` (U+0027), written via its code point. -/
def quoteChar : Char := Char.ofNat 39

/-- Model of JavaScript `haystack.includes(needle)` at the character-list
level: some position of the haystack starts with the needle. -/
def listContains (sub : List Char) : List Char → Bool
  | [] => sub.isEmpty
  | c :: cs => List.isPrefixOf sub (c :: cs) || listContains sub cs

/-- Model of JavaScript `s.includes(sub)`. -/
def jsIncludes (s sub : String) : Bool :=
  listContains sub.data s.data

/-- Model of JavaScript `p.isPrefixOf`-style test `s.startsWith(p)` on the
underlying character lists. -/
def strHasPre (p s : String) : Bool :=
  List.isPrefixOf p.data s.data

/-- Model of JavaScript `s.endsWith(p)` on the underlying character lists
(used for the single-trailing-slash strip `replace(/\/$/, '')`). -/
def strHasSuf (p s : String) : Bool :=
  List.isSuffixOf p.data s.data

/-- Model of JavaScript `parseInt(s)`: skip leading whitespace, read an
optional sign and a maximal run of decimal digits; `none` models `NaN`. -/
def jsParseInt (s : String) : Option Int :=
  let cs := s.data.dropWhile (fun c => c = ' ' ∨ c = '\t' ∨ c = '\n' ∨ c = '\r')
  let signAndRest : Int × List Char :=
    match cs with
    | '-' :: rest => (-1, rest)
    | '+' :: rest => (1, rest)
    | _ => (1, cs)
  let digits := signAndRest.2.takeWhile Char.isDigit
  if digits.isEmpty then none
  else some (signAndRest.1 * (digits.foldl (fun n c => 10 * n + (Int.ofNat (c.toNat - 48))) 0))

/-- Model of JavaScript `x || d` for an optional string `x` (absent or empty
strings are falsy). -/
def jsOr (x : Option String) (d : String) : String :=
  match x with
  | some s => if s = "" then d else s
  | none => d

/-- Model of JavaScript `[...new Set(l)]`: keep the first occurrence of each
element, in order. -/
def setDedup : List String → List String
  | [] => []
  | x :: xs => x :: setDedup (xs.filter (fun y => !(y == x)))
termination_by l => l.length
decreasing_by
  exact Nat.lt_succ_of_le (List.length_filter_le _ _)

/-- The components of a parsed URL that the client reads, as exposed by the
WHATWG `URL` class: `protocol` keeps its trailing colon, `port` is the empty
string when absent. -/
structure URLParts where
  protocol : String
  hostname : String
  port : String
  pathname : String

/-- The tagged result type `OdooResponse<T>` of `src/types/odoo.ts`:
either `success: true` with `data`, or `success: false` with `error`. -/
inductive OdooResponse (α : Type) where
  | ok (data : α)
  | fail (error : String)
deriving DecidableEq, Repr

/-- The `success` flag of an `OdooResponse`. -/
def OdooResponse.success {α : Type} : OdooResponse α → Bool
  | .ok _ => true
  | .fail _ => false

/-- `OdooClient.validateAndSuggestUrls` (lines 12-48 of
`src/clients/odoo-client.ts`).  Parsing `new URL(configUrl)` is an external
library call; it is passed in as the `parse` parameter (`none` models the
constructor throwing).  On a parsed URL the function appends path, port and
deployment-pattern suggestions; on a parse failure it suggests scheme
prefixes only when the input does not already start with `"http"`; the final
list is de-duplicated as by `[...new Set(s)]`. -/
def validateAndSuggestUrls (parse : String → Option URLParts) (configUrl : String) :
    Bool × List String :=
  match parse configUrl with
  | some url =>
    let s1 : List String :=
      if url.pathname = "/" ∨ url.pathname = "" then
        [(if strHasSuf "/" configUrl then (⟨configUrl.data.dropLast⟩ : String)
          else configUrl) ++ "/xmlrpc/2/common"]
      else []
    let s2 : List String :=
      if url.port = "" then
        [url.protocol ++ "//" ++ url.hostname ++ ":8069/xmlrpc/2/common",
         url.protocol ++ "//" ++ url.hostname ++ ":443/xmlrpc/2/common"]
      else []
    let baseUrl := url.protocol ++ "//" ++ url.hostname ++
      (if url.port ≠ "" then ":" ++ url.port else "")
    let s3 : List String :=
      [baseUrl ++ "/xmlrpc/2/common",
       baseUrl ++ ":8069/xmlrpc/2/common",
       baseUrl ++ "/odoo/xmlrpc/2/common",
       baseUrl ++ "/web/xmlrpc/2/common"]
    (true, setDedup (s1 ++ s2 ++ s3))
  | none =>
    let s : List String :=
      if !(strHasPre "http" configUrl) then
        ["https://" ++ configUrl ++ "/xmlrpc/2/common",
         "http://" ++ configUrl ++ ":8069/xmlrpc/2/common"]
      else []
    (false, setDedup s)

/-- A raw HTTP response as seen by the probe's callback: status code, status
message, and the header map (node lower-cases header names). -/
structure ProbeResponse where
  statusCode : Nat
  statusMessage : String
  headers : List (String × String)
deriving DecidableEq, Repr

/-- The one event that settles a single `http(s).request`: the response
callback fires, the `error` handler fires, or the `timeout` handler fires. -/
inductive ProbeEvent where
  | response (res : ProbeResponse)
  | error (message : String)
  | timeout
deriving DecidableEq, Repr

/-- The success payload of `testHttpEndpoint`: `{status, contentType,
headers}`. -/
structure ProbeData where
  status : Nat
  contentType : Option String
  headers : List (String × String)
deriving DecidableEq, Repr

/-- `res.headers['content-type']` — header lookup by the lower-cased name. -/
def contentTypeOf (headers : List (String × String)) : Option String :=
  headers.lookup "content-type"

/-- `const port = parseInt(url.port) || (isSecure ? 443 : 8069)` (lines
66-68 and 140-142 of `src/clients/odoo-client.ts`): a parseable non-zero
port wins, otherwise 443 for `https:` and 8069 for every other scheme. -/
def resolvePort (protocol portStr : String) : Int :=
  let isSecure := protocol = "https:"
  match jsParseInt portStr with
  | some n => if n ≠ 0 then n else (if isSecure then 443 else 8069)
  | none => if isSecure then 443 else 8069

/-- The option object handed to `http(s).request`; `rejectUnauthorized` is
spread in only for the secure scheme (absent means node's default). -/
structure RequestOptions where
  hostname : String
  port : Int
  path : String
  method : String
  timeoutMs : Nat
  rejectUnauthorized : Option Bool
deriving DecidableEq, Repr

/-- The request options built by `OdooClient.testHttpEndpoint` (lines 75-89):
POST, 10000 ms timeout, port from `resolvePort`. -/
def testHttpEndpointOptions (url : URLParts) (path : String) : RequestOptions :=
  let isSecure := url.protocol = "https:"
  { hostname := url.hostname
    port := resolvePort url.protocol url.port
    path := path
    method := "POST"
    timeoutMs := 10000
    rejectUnauthorized := if isSecure then some false else none }

/-- The request options built by `OdooClient.inspectResponseBody` (lines
147-161): same shape, 5000 ms timeout. -/
def inspectResponseBodyOptions (url : URLParts) (path : String) : RequestOptions :=
  let isSecure := url.protocol = "https:"
  { hostname := url.hostname
    port := resolvePort url.protocol url.port
    path := path
    method := "POST"
    timeoutMs := 5000
    rejectUnauthorized := if isSecure then some false else none }

/-- Failure message of the probe for status 405 (line 108). -/
def http405Err : String :=
  "HTTP 405: XML-RPC endpoint found but method not allowed. This usually means the endpoint is correct but needs proper XML-RPC requests."

/-- Generic failure message of the probe for any other status (line 113). -/
def httpGenericErr (status : Nat) (statusMessage : String) : String :=
  "HTTP " ++ (toString status ++ (": " ++ (statusMessage ++ ". Check if XML-RPC is enabled on this Odoo instance.")))

/-- Failure message of the probe on a network-level error (line 122). -/
def httpReqFailedErr (message : String) : String :=
  "HTTP request failed: " ++ (message ++ ". Check URL and network connectivity.")

/-- Failure message of the probe on timeout (line 131). -/
def httpTimeoutErr : String :=
  "HTTP request timed out. Server might be overloaded or unreachable."

/-- Outcome classification of `OdooClient.testHttpEndpoint` (lines 91-133),
as a function of the event that settles the underlying request.  Status 200,
400 or 500 is a success carrying status, content type and the header set;
405 is the distinct method-not-allowed failure; any other status the generic
failure; network error and timeout resolve (not reject) with transport
failures. -/
def testHttpEndpoint (ev : ProbeEvent) : OdooResponse ProbeData :=
  match ev with
  | .response res =>
    if res.statusCode = 200 ∨ res.statusCode = 400 ∨ res.statusCode = 500 then
      .ok { status := res.statusCode
            contentType := contentTypeOf res.headers
            headers := res.headers }
    else if res.statusCode = 405 then
      .fail http405Err
    else
      .fail (httpGenericErr res.statusCode res.statusMessage)
  | .error message => .fail (httpReqFailedErr message)
  | .timeout => .fail httpTimeoutErr

/-- The one event that settles a single body fetch: the response body ended,
the `error` handler fired, or the `timeout` handler fired. -/
inductive FetchEvent where
  | body (s : String)
  | error
  | timeout
deriving DecidableEq, Repr

/-- `OdooClient.inspectResponseBody` (lines 139-186) always resolves to a
string: the accumulated body, or a placeholder on error or timeout. -/
def inspectResponseBody (ev : FetchEvent) : String :=
  match ev with
  | .body s => s
  | .error => "Unable to fetch response body"
  | .timeout => "Response body fetch timed out"

/-- The literal searched for by the regular expression
`Unknown XML-RPC tag '([^']+)'` up to its capture group. -/
def unknownTagLit : List Char := "Unknown XML-RPC tag '".data

/-- The capture part `([^']+)'` of the unknown-tag pattern: a maximal
non-empty run of non-quote characters followed by a closing quote. -/
def tryQuoted (cs : List Char) : Option (List Char) :=
  let tag := cs.takeWhile (fun c => c != quoteChar)
  if tag.isEmpty then none
  else if (cs.drop tag.length).isEmpty then none
  else some tag

/-- First-match search for `Unknown XML-RPC tag '([^']+)'` over a character
list, trying each start position left to right as a regex engine does. -/
def scanTag : List Char → Option (List Char)
  | [] => none
  | c :: cs =>
    if List.isPrefixOf unknownTagLit (c :: cs) then
      match tryQuoted ((c :: cs).drop unknownTagLit.length) with
      | some tag => some tag
      | none => scanTag cs
    else scanTag cs

/-- `error.message.match(/Unknown XML-RPC tag '([^']+)'/)?.[1]` (line 194):
the first captured tag name, if the pattern matches anywhere. -/
def extractUnknownTag (msg : String) : Option String :=
  (scanTag msg.data).map (fun l => ⟨l⟩)

/-- Case-insensitive literal match of a pattern against the front of a
character list. -/
def ciHasPre : List Char → List Char → Bool
  | [], _ => true
  | _ :: _, [] => false
  | p :: ps, c :: cs => (p.toLower == c.toLower) && ciHasPre ps cs

/-- Attempt of the title pattern at one start position: the pattern is
`<title[^>]*>([^<]+)</title>` with the `i` flag, and with these character
classes the greedy scan without backtracking is exact. -/
def matchTitleAt (cs : List Char) : Option (List Char) :=
  if ciHasPre "<title".data cs then
    let rest1 := cs.drop 6
    let attrs := rest1.takeWhile (fun c => c != '>')
    match rest1.drop attrs.length with
    | '>' :: rest3 =>
      let cap := rest3.takeWhile (fun c => c != '<')
      if cap.isEmpty then none
      else if ciHasPre "</title>".data (rest3.drop cap.length) then some cap
      else none
    | _ => none
  else none

/-- First-match search for the title pattern, left to right. -/
def scanTitle : List Char → Option (List Char)
  | [] => none
  | c :: cs =>
    match matchTitleAt (c :: cs) with
    | some cap => some cap
    | none => scanTitle cs

/-- `responseBody.match(/<title[^>]*>([^<]+)<\/title>/i)` (line 213): the
first captured title text. -/
def extractTitle (s : String) : Option String :=
  (scanTitle s.data).map (fun l => ⟨l⟩)

/-- Model of JavaScript `s.replace(pat, repl)` with a plain-string pattern:
only the first occurrence is replaced. -/
def replaceFirstAux (pat repl : List Char) : List Char → Option (List Char)
  | [] => none
  | c :: cs =>
    if List.isPrefixOf pat (c :: cs) then
      some (repl ++ (c :: cs).drop pat.length)
    else (replaceFirstAux pat repl cs).map (fun l => c :: l)

/-- Model of JavaScript `s.replace(pat, repl)` (first occurrence only). -/
def jsReplaceFirst (s pat repl : String) : String :=
  match replaceFirstAux pat.data repl.data s.data with
  | some l => ⟨l⟩
  | none => s

/-- An error value delivered to an XML-RPC callback: the `message` and
`code` properties the validator reads (absent properties are `none`). -/
structure RpcError where
  message : Option String
  code : Option String
deriving DecidableEq, Repr

/-- The results of the two awaited diagnostic sub-calls made on the
unknown-tag path, plus what `OdooClient.validateAndSuggestUrls` needs about
the configured base address: `responseBody` is what
`inspectResponseBody('/xmlrpc/2/common')` resolved to and `httpTest` what
`testHttpEndpoint('/xmlrpc/2/common')` resolved to. -/
structure DiagContext where
  parse : String → Option URLParts
  configUrl : String
  responseBody : String
  httpTest : OdooResponse ProbeData

/-- Guidance appended when the probed content type contains `text/xml`
(lines 227-233). -/
def xmlBlock : String :=
  "\n\nThe Content-Type suggests this should be XML-RPC, but the response contains HTML elements.\nThis usually means:\n1. Odoo is returning an error page in XML format\n2. Wrong database name or XML-RPC path\n3. Odoo configuration issue\n\nCheck your ODOO_DATABASE setting and ensure XML-RPC is properly configured."

/-- Guidance opening appended when the probed content type contains
`text/html` (lines 237-243). -/
def htmlBlockIntro : String :=
  "\n\nThis suggests:\n1. URL might be pointing to Odoo web interface instead of XML-RPC endpoint\n2. XML-RPC might be disabled on this Odoo instance\n3. Authentication might be required at web server level\n4. Wrong port or path\n\nTry these URLs in your .env file:"

/-- The numbered remediation list (lines 245-247): the first five
suggestions, each with the common sub-path stripped (first occurrence). -/
def suggestionLines (suggs : List String) : String :=
  ((suggs.take 5).enum).foldl
    (fun acc p =>
      acc ++ ("\n" ++ (toString (p.1 + 1) ++ (". ODOO_URL=" ++
        jsReplaceFirst p.2 "/xmlrpc/2/common" ""))))
    ""

/-- The page-title analysis block (lines 212-224): entered only when the
body contains the exact `<title>` or `<TITLE>` text, reporting the first
matched title (or `Unknown`) and a cause classification over its
lower-cased text. -/
def titleSegment (responseBody : String) : String :=
  if jsIncludes responseBody "<title>" || jsIncludes responseBody "<TITLE>" then
    let title :=
      match extractTitle responseBody with
      | some t => t.trim
      | none => "Unknown"
    let lower := title.toLower
    "\n\nPage title: \"" ++ (title ++ ("\"" ++
      (if jsIncludes lower "404" || jsIncludes lower "not found" then
        "\n\nThis is a 404 error page. The XML-RPC endpoint doesn't exist at this URL."
      else if jsIncludes lower "login" || jsIncludes lower "sign in" then
        "\n\nThis is a login page. You may need to authenticate at the web server level first."
      else if jsIncludes lower "error" || jsIncludes lower "exception" then
        "\n\nThis appears to be an error page from Odoo."
      else "")))
  else ""

/-- The content-type guidance block (lines 226-250): XML marker first, else
HTML marker with the capped numbered suggestion list. -/
def contentTypeSegment (contentType : String) (suggs : List String) : String :=
  if jsIncludes contentType "text/xml" then xmlBlock
  else if jsIncludes contentType "text/html" then
    htmlBlockIntro ++ (suggestionLines suggs ++
      "\n\nOr check if XML-RPC is enabled in Odoo configuration.")
  else ""

/-- Everything appended to the diagnostic message after its fixed head
(lines 205-251): the probe's own error if the probe failed, otherwise the
reported content type (empty or absent falls back to `unknown`), the title
analysis, and the content-type guidance. -/
def diagExtras (responseBody : String) (httpTest : OdooResponse ProbeData)
    (suggs : List String) : String :=
  match httpTest with
  | .fail err => "\n\nEndpoint test failed: " ++ err
  | .ok d =>
    let contentType :=
      match d.contentType with
      | some ct => if ct = "" then "unknown" else ct
      | none => "unknown"
    "\n\nEndpoint returns Content-Type: " ++ (contentType ++
      (titleSegment responseBody ++ contentTypeSegment contentType suggs))

/-- `htmlTag` interpolation: an undefined capture prints as `undefined`. -/
def optStr : Option String → String
  | some s => s
  | none => "undefined"

/-- The composed diagnostic message of the unknown-tag branch (lines
203-251): the fixed head naming the detected tag, then the appended
extras. -/
def composeDiagnostic (htmlTag : Option String) (responseBody : String)
    (httpTest : OdooResponse ProbeData) (suggs : List String) : String :=
  "Server returned non-XML-RPC response (found <" ++ (optStr htmlTag ++
    ("> tag). " ++ diagExtras responseBody httpTest suggs))

/-- The generic failure message of branch 3 (line 261):
`${operation} failed: ${error.message || error.code || 'Unknown error'}`. -/
def genericFailure (operation : String) (e : RpcError) : String :=
  operation ++ (" failed: " ++ jsOr e.message (jsOr e.code "Unknown error"))

/-- `OdooClient.validateXmlRpcResponse` (lines 188-269).  No error gives
success with the raw result; an error whose (truthy) message contains
`Unknown XML-RPC tag` gives the composed diagnostic failure, built from the
extracted tag, the fetched body, the probe outcome and the URL suggestions;
any other error gives the generic failure. -/
def validateXmlRpcResponse {α : Type} (ctx : DiagContext) (error : Option RpcError)
    (result : α) (operation : String) : OdooResponse α :=
  match error with
  | none => .ok result
  | some e =>
    match e.message with
    | some m =>
      if m ≠ "" ∧ jsIncludes m "Unknown XML-RPC tag" = true then
        .fail (composeDiagnostic (extractUnknownTag m) ctx.responseBody ctx.httpTest
          (validateAndSuggestUrls ctx.parse ctx.configUrl).2)
      else .fail (genericFailure operation e)
    | none => .fail (genericFailure operation e)

/-- `this.uid` truthiness as tested by `if (!uid)` / `if (!this.uid)`:
`null` (here `none`) and `0` are falsy. -/
def uidTruthy : Option Int → Bool
  | none => false
  | some n => n != 0

/-- The 15000 ms bound of `authenticate` (line 308). -/
def authTimeoutMs : Nat := 15000

/-- The 20000 ms bound of `searchRead` (line 384). -/
def searchTimeoutMs : Nat := 20000

/-- Failure message of `authenticate` on timeout (line 306). -/
def authTimeoutErr : String :=
  "Authentication timed out - check your credentials and Odoo server status"

/-- Failure message of `authenticate` on a falsy identity (line 325). -/
def invalidCredsErr : String :=
  "Invalid credentials or API key. Check your username, database name, and API key."

/-- Failure message of `searchRead` on timeout (line 382). -/
def searchTimeoutErr : String :=
  "Search operation timed out - the query may be too complex or the server is overloaded"

/-- An event settling (or arriving after) an `authenticate` call: the 15 s
timer fires, or the `methodCall('authenticate', ...)` callback fires with an
`(error, uid)` pair.  The raw identity is `Option Int`: `none` models the
remote `false`/`null`/`undefined`. -/
inductive AuthEvent where
  | timeout
  | reply (error : Option RpcError) (uidVal : Option Int)

/-- Effect of one `authenticate` event (lines 301-339) on the `uid` field,
with the outcome it resolves: timeout resolves the timeout failure and
leaves the field alone; a reply is validated, a falsy validated identity
resolves the invalid-credentials failure, a truthy one is stored and
returned, a validation failure is passed through. -/
def authEventStep (ctx : DiagContext) (st : Option Int) :
    AuthEvent → Option Int × OdooResponse Int
  | .timeout => (st, .fail authTimeoutErr)
  | .reply error uidVal =>
    match validateXmlRpcResponse ctx error uidVal "Authentication" with
    | .ok _ =>
      match uidVal with
      | some n => if n ≠ 0 then (some n, .ok n) else (st, .fail invalidCredsErr)
      | none => (st, .fail invalidCredsErr)
    | .fail e => (st, .fail e)

/-- Promise semantics over a list of events: every event runs its handler
(so state keeps changing), but only the first `resolve` fixes the promise's
value. -/
def promiseRun {σ ρ ε : Type} (step : σ → ε → σ × ρ) :
    σ → Option ρ → List ε → σ × Option ρ
  | st, out, [] => (st, out)
  | st, out, ev :: evs =>
    let r := step st ev
    promiseRun step r.1 (match out with | some o => some o | none => some r.2) evs

/-- `OdooClient.authenticate` (lines 298-340) over the events that reach it,
in order: final `uid` field and resolved outcome (`none` when no event ever
resolves the promise). -/
def authenticateRun (ctx : DiagContext) (st : Option Int) (evs : List AuthEvent) :
    Option Int × Option (OdooResponse Int) :=
  promiseRun (authEventStep ctx) st none evs

/-- The `OdooConfig` record of `src/types/odoo.ts`. -/
structure OdooConfig where
  url : String
  database : String
  username : String
  password : String
deriving DecidableEq, Repr

/-- A filter expression: an ordered list of (field, operator, value)
triplets, passed through opaquely. -/
abbrev Domain := List (String × String × String)

/-- The `OdooSearchParams` record of `src/types/odoo.ts`; `none` models an
absent property, so that the destructuring defaults of lines 360-366
apply. -/
structure OdooSearchParams where
  domain : Option Domain := none
  fields : Option (List String) := none
  limit : Option Int := none
  offset : Option Int := none
  order : Option String := none

/-- The argument list of the `execute_kw` remote call issued by `searchRead`
(lines 386-398): positional arguments and the keyword-argument object, in
which `fields` is omitted (`undefined`) when the requested list is empty. -/
structure ExecuteKwRequest where
  database : String
  uid : Option Int
  password : String
  model : String
  method : String
  args : List Domain
  fields : Option (List String)
  limit : Int
  offset : Int
  order : String
deriving DecidableEq, Repr

/-- A fetched record row, opaque to the client. -/
abbrev Row := List (String × String)

/-- An event settling a `searchRead` query: the 20 s timer fires, or the
`execute_kw` callback fires with an `(error, result)` pair (`none` models a
null/undefined result array). -/
inductive SearchEvent where
  | timeout
  | reply (error : Option RpcError) (result : Option (List Row))

/-- What one `searchRead` call did: the `uid` field afterwards, how many
`authenticate()` calls it made, the remote request it issued (none when it
failed before issuing one), and its outcome. -/
structure SearchReadResult where
  newUid : Option Int
  authAttempts : Nat
  request : Option ExecuteKwRequest
  outcome : OdooResponse (List Row)

/-- The query phase of `searchRead` (lines 360-414): destructuring defaults
(`[]`, `[]`, 100, 0, `id desc`), the `execute_kw` request, and the outcome
of the settling event (timeout failure, validated failure, or the row list
with `result || []`). -/
def searchReadQuery (ctx : DiagContext) (cfg : OdooConfig) (uidNow : Option Int)
    (model : String) (p : OdooSearchParams) (qev : SearchEvent) (nAuth : Nat) :
    SearchReadResult :=
  let domain := p.domain.getD []
  let fields := p.fields.getD []
  let limit := p.limit.getD 100
  let offset := p.offset.getD 0
  let order := p.order.getD "id desc"
  let req : ExecuteKwRequest :=
    { database := cfg.database
      uid := uidNow
      password := cfg.password
      model := model
      method := "search_read"
      args := [domain]
      fields := if fields.length > 0 then some fields else none
      limit := limit
      offset := offset
      order := order }
  let outcome : OdooResponse (List Row) :=
    match qev with
    | .timeout => .fail searchTimeoutErr
    | .reply error result =>
      match validateXmlRpcResponse ctx error result "SearchRead" with
      | .ok _ => .ok (result.getD [])
      | .fail e => .fail e
  { newUid := uidNow, authAttempts := nAuth, request := some req, outcome := outcome }

/-- `OdooClient.searchRead` (lines 342-415): with a truthy `uid` field the
query runs directly with no authentication call; otherwise exactly one
`authenticate()` call runs first — its failure is returned verbatim with no
request issued, its success leads to the query with the freshly stored
identity, and an `authenticate()` that never resolves means `searchRead`
never resolves (`none`). -/
def searchRead (ctx : DiagContext) (cfg : OdooConfig) (st : Option Int)
    (authEvs : List AuthEvent) (model : String) (p : OdooSearchParams)
    (qev : SearchEvent) : Option SearchReadResult :=
  if uidTruthy st then some (searchReadQuery ctx cfg st model p qev 0)
  else
    match authenticateRun ctx st authEvs with
    | (st', some (.ok _)) => some (searchReadQuery ctx cfg st' model p qev 1)
    | (st', some (.fail e)) =>
      some { newUid := st', authAttempts := 1, request := none, outcome := .fail e }
    | (_, none) => none

theorem isPrefixOf_append_self (l r : List Char) : List.isPrefixOf l (l ++ r) = true := by
  rw [List.isPrefixOf_iff_prefix]
  exact List.prefix_append l r

theorem listContains_nil_sub (r : List Char) : listContains [] r = true := by
  induction r with
  | nil => rfl
  | cons c cs ih => simp [listContains]

theorem listContains_append_self (l sub r : List Char) :
    listContains sub (l ++ (sub ++ r)) = true := by
  induction l with
  | nil =>
    simp only [List.nil_append]
    cases sub with
    | nil => simpa using listContains_nil_sub r
    | cons a as =>
      have h := isPrefixOf_append_self (a :: as) r
      rw [List.cons_append] at h
      simp [listContains, h]
  | cons c cs ih =>
    simp [listContains, ih]

theorem jsIncludes_of_data (s sub : String) (l r : List Char)
    (h : s.data = l ++ (sub.data ++ r)) : jsIncludes s sub = true := by
  unfold jsIncludes
  rw [h]
  exact listContains_append_self l sub.data r

theorem strHasPre_append (p r : String) : strHasPre p (p ++ r) = true := by
  unfold strHasPre
  rw [String.data_append]
  exact isPrefixOf_append_self p.data r.data

theorem ne_of_strHasPre (p s t : String) (hs : strHasPre p s = true)
    (ht : strHasPre p t = false) : s ≠ t := by
  intro e
  rw [e, ht] at hs
  exact Bool.noConfusion hs

theorem strAppend_assoc (a b c : String) : (a ++ b) ++ c = a ++ (b ++ c) := by
  apply String.ext
  simp [String.data_append]

theorem rev_pre_of_append_eq (x b c : List Char) (h : c = x ++ b) :
    List.isPrefixOf b.reverse c.reverse = true := by
  subst h
  rw [List.reverse_append]
  exact isPrefixOf_append_self b.reverse x.reverse

theorem promiseRun_keeps {σ ρ ε : Type} (step : σ → ε → σ × ρ) (o : ρ) :
    ∀ (evs : List ε) (st : σ), (promiseRun step st (some o) evs).2 = some o := by
  intro evs
  induction evs with
  | nil => intro st; rfl
  | cons ev evs ih => intro st; simpa [promiseRun] using ih (step st ev).1

theorem mem_of_mem_setDedup : ∀ (l : List String), ∀ a ∈ setDedup l, a ∈ l := by
  intro l
  induction l using setDedup.induct with
  | case1 =>
    intro a h
    simp [setDedup] at h
  | case2 x xs ih =>
    intro a h
    rw [setDedup] at h
    rcases List.mem_cons.mp h with h1 | h2
    · exact h1 ▸ List.mem_cons_self _ _
    · exact List.mem_cons_of_mem _ (List.mem_of_mem_filter (ih a h2))

theorem setDedup_nodup : ∀ (l : List String), (setDedup l).Nodup := by
  intro l
  induction l using setDedup.induct with
  | case1 => simp [setDedup]
  | case2 x xs ih =>
    rw [setDedup]
    refine List.nodup_cons.mpr ⟨?_, ih⟩
    intro hmem
    have hx := mem_of_mem_setDedup _ _ hmem
    have hp := List.of_mem_filter hx
    simp at hp

theorem setDedup_pair (a b : String) (h : a ≠ b) : setDedup [a, b] = [a, b] := by
  rw [setDedup]
  have hb : List.filter (fun y => !(y == a)) [b] = [b] := by
    simp [List.filter_cons, Ne.symm h]
  rw [hb, setDedup]
  simp [setDedup]

theorem takeWhile_no_quote (x : List Char) (r : List Char) (hq : quoteChar ∉ x) :
    (x ++ quoteChar :: r).takeWhile (fun c => c != quoteChar) = x := by
  induction x with
  | nil => simp [List.takeWhile_cons]
  | cons a as ih =>
    have ha : a ≠ quoteChar := fun e => hq (by simp [e])
    simp only [List.cons_append, List.takeWhile_cons]
    simp [ha, ih (fun hm => hq (List.mem_cons_of_mem _ hm))]

theorem tryQuoted_eq (x r : List Char) (hx : x ≠ []) (hq : quoteChar ∉ x) :
    tryQuoted (x ++ quoteChar :: r) = some x := by
  unfold tryQuoted
  rw [takeWhile_no_quote x r hq]
  have h1 : x.isEmpty = false := by
    cases x with
    | nil => exact absurd rfl hx
    | cons a as => rfl
  have h2 : ((x ++ quoteChar :: r).drop x.length).isEmpty = false := by
    rw [List.drop_left]; rfl
  simp [h1, h2]

theorem scanTag_cons_hit (c : Char) (cs : List Char) (t : List Char)
    (h : List.isPrefixOf unknownTagLit (c :: cs) = true)
    (htq : tryQuoted ((c :: cs).drop unknownTagLit.length) = some t) :
    scanTag (c :: cs) = some t := by
  rw [scanTag, if_pos h, htq]

theorem scanTag_cons_next (c : Char) (cs : List Char)
    (h : ¬ (List.isPrefixOf unknownTagLit (c :: cs) = true ∧
          (tryQuoted ((c :: cs).drop unknownTagLit.length)).isSome = true)) :
    scanTag (c :: cs) = scanTag cs := by
  rw [scanTag]
  by_cases hp : List.isPrefixOf unknownTagLit (c :: cs) = true
  · rw [if_pos hp]
    cases htq : tryQuoted ((c :: cs).drop unknownTagLit.length) with
    | none => rfl
    | some tag => exact absurd ⟨hp, by rw [htq]; rfl⟩ h
  · rw [if_neg hp]

theorem scanTag_append (l x post : List Char) (hx : x ≠ []) (hq : quoteChar ∉ x) :
    ∃ t, scanTag (l ++ (unknownTagLit ++ (x ++ quoteChar :: post))) = some t := by
  induction l with
  | nil =>
    refine ⟨x, ?_⟩
    rw [List.nil_append]
    have hlit : unknownTagLit = 'U' :: "nknown XML-RPC tag '".data := by decide
    rw [hlit, List.cons_append]
    apply scanTag_cons_hit
    · rw [← List.cons_append, ← hlit]
      exact isPrefixOf_append_self _ _
    · rw [← List.cons_append, ← hlit, List.drop_left]
      exact tryQuoted_eq x post hx hq
  | cons c cs ih =>
    obtain ⟨t, ht⟩ := ih
    rw [List.cons_append]
    by_cases hp : List.isPrefixOf unknownTagLit
          (c :: (cs ++ (unknownTagLit ++ (x ++ quoteChar :: post)))) = true ∧
        (tryQuoted ((c :: (cs ++ (unknownTagLit ++ (x ++ quoteChar :: post)))).drop
          unknownTagLit.length)).isSome = true
    · obtain ⟨hp1, hp2⟩ := hp
      obtain ⟨tag, htag⟩ := Option.isSome_iff_exists.mp hp2
      exact ⟨tag, scanTag_cons_hit _ _ tag hp1 htag⟩
    · exact ⟨t, by rw [scanTag_cons_next _ _ hp]; exact ht⟩

/-- C1: for every raw remote-call outcome whose error message contains the
unknown-tag signature `Unknown XML-RPC tag 'X'` (with a non-empty, quote-free
tag `X`), `validateXmlRpcResponse` returns a failure outcome — never success
— and its composed error message contains the extracted tag name. -/
theorem C1_unknown_tag_classification {α : Type} (ctx : DiagContext)
    (pre x post m : String) (code : Option String) (result : α) (operation : String)
    (hm : m = pre ++ ("Unknown XML-RPC tag '" ++ (x ++ ("'" ++ post))))
    (hx : x ≠ "") (hq : quoteChar ∉ x.data) :
    ∃ msg t,
      validateXmlRpcResponse ctx (some ⟨some m, code⟩) result operation
        = OdooResponse.fail msg ∧
      (validateXmlRpcResponse ctx (some ⟨some m, code⟩) result
        operation).success = false ∧
      extractUnknownTag m = some t ∧
      jsIncludes msg t = true := by
  have hq' : "'".data = [quoteChar] := by decide
  have hdata : m.data = pre.data ++ (unknownTagLit ++ (x.data ++ (quoteChar :: post.data))) := by
    rw [hm]
    simp only [String.data_append, unknownTagLit, hq']
    rfl
  have hxd : x.data ≠ [] := by
    intro h0
    apply hx
    apply String.ext
    rw [h0]
  have hne : m ≠ "" := by
    intro h0
    have hnil : m.data = [] := by rw [h0]
    rw [hdata] at hnil
    have h2 := List.append_eq_nil.mp hnil
    have h3 := List.append_eq_nil.mp h2.2
    exact absurd h3.1 (by decide)
  have hincl : jsIncludes m "Unknown XML-RPC tag" = true := by
    apply jsIncludes_of_data m _ pre.data
      ((' ' :: [quoteChar]) ++ (x.data ++ (quoteChar :: post.data)))
    rw [hdata]
    have hlit2 : unknownTagLit = "Unknown XML-RPC tag".data ++ (' ' :: [quoteChar]) := by decide
    rw [hlit2, List.append_assoc]
  obtain ⟨t, ht⟩ := scanTag_append pre.data x.data post.data hxd hq
  have hext : extractUnknownTag m = some (⟨t⟩ : String) := by
    unfold extractUnknownTag
    rw [hdata, ht]
    rfl
  have hguard : m ≠ "" ∧ jsIncludes m "Unknown XML-RPC tag" = true := ⟨hne, hincl⟩
  have heq : validateXmlRpcResponse ctx (some ⟨some m, code⟩) result operation
      = OdooResponse.fail (composeDiagnostic (extractUnknownTag m) ctx.responseBody ctx.httpTest
        (validateAndSuggestUrls ctx.parse ctx.configUrl).2) := by
    simp only [validateXmlRpcResponse]
    rw [if_pos hguard]
  refine ⟨_, ⟨t⟩, heq, by rw [heq]; rfl, hext, ?_⟩
  rw [hext]
  apply jsIncludes_of_data _ _ ("Server returned non-XML-RPC response (found <".data)
    (("> tag). " ++ diagExtras ctx.responseBody ctx.httpTest
      (validateAndSuggestUrls ctx.parse ctx.configUrl).2).data)
  simp [composeDiagnostic, optStr, String.data_append]

theorem https_http_ne (u t1 t2 : String) :
    ("https://" ++ u ++ t1) ≠ ("http://" ++ u ++ t2) := by
  intro h
  have hd := congrArg String.data h
  simp only [String.data_append] at hd
  have h4 := congrArg (fun l => l[4]?) hd
  simp only at h4
  rw [List.getElem?_append_left (by simp), List.getElem?_append_left (by decide)] at h4
  rw [List.getElem?_append_left (by simp), List.getElem?_append_left (by decide)] at h4
  exact absurd h4 (by decide)

/-- A concrete diagnostic context used to instantiate theorems with
hypotheses: a parser that rejects every address (as `new URL` does on the
inputs used with it here), and fixed sub-call results. -/
def ctx0 : DiagContext :=
  { parse := fun _ => none
    configUrl := "http://localhost"
    responseBody := ""
    httpTest := OdooResponse.fail "probe failed" }

/-- A concrete connection configuration used to instantiate theorems with
hypotheses. -/
def cfg0 : OdooConfig :=
  { url := "http://localhost:8069"
    database := "db"
    username := "admin"
    password := "secret" }

/-- Witness for C1 at the concrete error message
`Unknown XML-RPC tag 'HTML'`. -/
theorem C1_unknown_tag_classification_witness :
    ∃ msg t,
      validateXmlRpcResponse ctx0 (some ⟨some "Unknown XML-RPC tag 'HTML'", none⟩)
        (0 : Nat) "Connection test" = OdooResponse.fail msg ∧
      (validateXmlRpcResponse ctx0 (some ⟨some "Unknown XML-RPC tag 'HTML'", none⟩)
        (0 : Nat) "Connection test").success = false ∧
      extractUnknownTag "Unknown XML-RPC tag 'HTML'" = some t ∧
      jsIncludes msg t = true :=
  C1_unknown_tag_classification ctx0 "" "HTML" "" "Unknown XML-RPC tag 'HTML'" none 0
    "Connection test" (by decide) (by decide) (by decide)

/-- C2 (amended): an `authenticate()` call whose 15000 ms timer fires first
resolves the timeout failure — never success — no matter what the transport
does afterwards, and when the transport never resolves the `uid` field is
unchanged.  (A late transport reply can still store an identity; see the
counterexample.) -/
theorem C2_timeout_failure (ctx : DiagContext) (st : Option Int) (rest : List AuthEvent) :
    (authenticateRun ctx st (AuthEvent.timeout :: rest)).2 =
      some (OdooResponse.fail authTimeoutErr) ∧
    (authenticateRun ctx st [AuthEvent.timeout]).1 = st ∧
    authTimeoutMs = 15 * 1000 := by
  refine ⟨?_, rfl, rfl⟩
  show (promiseRun (authEventStep ctx) st none (AuthEvent.timeout :: rest)).2 = _
  rw [promiseRun]
  exact promiseRun_keeps (authEventStep ctx) (OdooResponse.fail authTimeoutErr) rest _

/-- C2 counterexample to the claim as stated: after the timer fires, a late
transport reply carrying identity 5 still mutates the `uid` field from
`none` to `some 5` even though the call's outcome stays the timeout
failure — so the timed-out call does change Session Identity. -/
theorem C2_timeout_counterexample :
    (authenticateRun ctx0 none [AuthEvent.timeout, AuthEvent.reply none (some 5)]).1 =
      some 5 ∧
    (authenticateRun ctx0 none [AuthEvent.timeout, AuthEvent.reply none (some 5)]).2 =
      some (OdooResponse.fail authTimeoutErr) := by
  exact ⟨rfl, rfl⟩

/-- C3: a transport-level success (`error` absent) with a falsy identity
resolves the invalid-credentials failure and leaves the `uid` field alone;
with a truthy identity it stores and returns it.  The invalid-credentials
message differs from the timeout message and from every message the
validator produces for an actual error. -/
theorem C3_invalid_credentials (ctx : DiagContext) (st uidVal : Option Int) :
    (uidTruthy uidVal = false →
      authEventStep ctx st (AuthEvent.reply none uidVal) =
        (st, OdooResponse.fail invalidCredsErr)) ∧
    (∀ n : Int, uidVal = some n → n ≠ 0 →
      authEventStep ctx st (AuthEvent.reply none uidVal) = (some n, OdooResponse.ok n)) ∧
    invalidCredsErr ≠ authTimeoutErr ∧
    (∀ (e : RpcError) (r : Option Int) (msg : String),
      validateXmlRpcResponse ctx (some e) r "Authentication" = OdooResponse.fail msg →
      msg ≠ invalidCredsErr) := by
  refine ⟨?_, ?_, by decide, ?_⟩
  · intro h
    cases uidVal with
    | none => rfl
    | some n =>
      have hn : n = 0 := by simpa [uidTruthy] using h
      subst hn
      simp [authEventStep, validateXmlRpcResponse]
  · intro n hn hne
    subst hn
    simp [authEventStep, validateXmlRpcResponse, hne]
  · intro e r msg h
    rcases e with ⟨emsg, ecode⟩
    cases emsg with
    | none =>
      simp only [validateXmlRpcResponse] at h
      injection h with h1
      refine ne_of_strHasPre "Authentication" msg invalidCredsErr ?_ (by decide)
      rw [← h1]
      unfold genericFailure
      exact strHasPre_append _ _
    | some m0 =>
      simp only [validateXmlRpcResponse] at h
      by_cases hg : m0 ≠ "" ∧ jsIncludes m0 "Unknown XML-RPC tag" = true
      · rw [if_pos hg] at h
        injection h with h1
        refine ne_of_strHasPre "Server returned non-XML-RPC response (found <"
          msg invalidCredsErr ?_ (by decide)
        rw [← h1]
        unfold composeDiagnostic
        exact strHasPre_append _ _
      · rw [if_neg hg] at h
        injection h with h1
        refine ne_of_strHasPre "Authentication" msg invalidCredsErr ?_ (by decide)
        rw [← h1]
        unfold genericFailure
        exact strHasPre_append _ _

/-- Witness for C3 at a concrete falsy identity. -/
theorem C3_invalid_credentials_witness :
    authEventStep ctx0 none (AuthEvent.reply none none) =
      (none, OdooResponse.fail invalidCredsErr) :=
  (C3_invalid_credentials ctx0 none none).1 rfl

/-- C4: with a truthy `uid` field, `searchRead` makes no `authenticate()`
call; with a falsy one it makes exactly one authentication attempt before
the query — when that attempt fails, the failure's error message is
returned verbatim and no remote query is issued; when it succeeds, the
query is issued after that single attempt and carries the freshly stored
identity. -/
theorem C4_session_identity_reuse (ctx : DiagContext) (cfg : OdooConfig) (st : Option Int)
    (authEvs : List AuthEvent) (model : String) (p : OdooSearchParams) (qev : SearchEvent) :
    (uidTruthy st = true →
      ∃ r, searchRead ctx cfg st authEvs model p qev = some r ∧ r.authAttempts = 0) ∧
    (uidTruthy st = false → ∀ (st' : Option Int) (e : String),
      authenticateRun ctx st authEvs = (st', some (OdooResponse.fail e)) →
      searchRead ctx cfg st authEvs model p qev =
        some { newUid := st', authAttempts := 1, request := none,
               outcome := OdooResponse.fail e }) ∧
    (uidTruthy st = false → ∀ (st' : Option Int) (n : Int),
      authenticateRun ctx st authEvs = (st', some (OdooResponse.ok n)) →
      ∃ r req, searchRead ctx cfg st authEvs model p qev = some r ∧
        r.authAttempts = 1 ∧ r.newUid = st' ∧ r.request = some req ∧ req.uid = st') := by
  refine ⟨?_, ?_, ?_⟩
  · intro h
    refine ⟨searchReadQuery ctx cfg st model p qev 0, ?_, rfl⟩
    unfold searchRead
    rw [if_pos h]
  · intro h st' e hauth
    unfold searchRead
    rw [if_neg (by simp [h]), hauth]
  · intro h st' n hauth
    refine ⟨searchReadQuery ctx cfg st' model p qev 1,
      { database := cfg.database, uid := st', password := cfg.password, model := model,
        method := "search_read", args := [p.domain.getD []],
        fields := if (p.fields.getD []).length > 0 then some (p.fields.getD []) else none,
        limit := p.limit.getD 100, offset := p.offset.getD 0,
        order := p.order.getD "id desc" },
      ?_, rfl, rfl, rfl, rfl⟩
    unfold searchRead
    rw [if_neg (by simp [h]), hauth]

/-- Witness for C4: with no identity, an authentication that times out makes
`searchRead` return that timeout failure verbatim after one attempt and no
query, while a successful authentication (identity 7) leads to the query
being issued after exactly one attempt with the fresh identity. -/
theorem C4_session_identity_reuse_witness :
    (searchRead ctx0 cfg0 none [AuthEvent.timeout] "res.partner" {} SearchEvent.timeout =
      some { newUid := none, authAttempts := 1, request := none,
             outcome := OdooResponse.fail authTimeoutErr }) ∧
    (∃ r req, searchRead ctx0 cfg0 none [AuthEvent.reply none (some 7)] "res.partner" {}
        SearchEvent.timeout = some r ∧
      r.authAttempts = 1 ∧ r.newUid = some 7 ∧ r.request = some req ∧ req.uid = some 7) :=
  ⟨(C4_session_identity_reuse ctx0 cfg0 none [AuthEvent.timeout] "res.partner" {}
      SearchEvent.timeout).2.1 rfl none authTimeoutErr rfl,
   (C4_session_identity_reuse ctx0 cfg0 none [AuthEvent.reply none (some 7)] "res.partner" {}
      SearchEvent.timeout).2.2 rfl (some 7) 7 rfl⟩

/-- C5 (amended): the `execute_kw` request issued by `searchRead` carries
limit 100, offset 0 and order `id desc` when unspecified, the user-supplied
values otherwise — passed through verbatim, with no cap enforced here (the
documented cap of 1000 lives in the tool layer's argument validation) — and
omits `fields` exactly when the requested list is empty. -/
theorem C5_query_parameter_defaults (ctx : DiagContext) (cfg : OdooConfig) (st : Option Int)
    (model : String) (p : OdooSearchParams) (qev : SearchEvent)
    (h : uidTruthy st = true) :
    ∃ r req, searchRead ctx cfg st [] model p qev = some r ∧ r.request = some req ∧
      req.limit = p.limit.getD 100 ∧
      req.offset = p.offset.getD 0 ∧
      req.order = p.order.getD "id desc" ∧
      req.method = "search_read" ∧
      req.args = [p.domain.getD []] ∧
      (p.fields.getD [] = [] → req.fields = none) ∧
      (p.fields.getD [] ≠ [] → req.fields = some (p.fields.getD [])) := by
  refine ⟨searchReadQuery ctx cfg st model p qev 0,
    { database := cfg.database, uid := st, password := cfg.password, model := model,
      method := "search_read", args := [p.domain.getD []],
      fields := if (p.fields.getD []).length > 0 then some (p.fields.getD []) else none,
      limit := p.limit.getD 100, offset := p.offset.getD 0,
      order := p.order.getD "id desc" },
    ?_, rfl, rfl, rfl, rfl, rfl, rfl, ?_, ?_⟩
  · unfold searchRead
    rw [if_pos h]
  · intro hf
    simp [hf]
  · intro hf
    rw [if_pos (List.length_pos.mpr hf)]

/-- Witness for C5 with all parameters unspecified. -/
theorem C5_query_parameter_defaults_witness :
    ∃ r req, searchRead ctx0 cfg0 (some 1) [] "sale.order" {} SearchEvent.timeout = some r ∧
      r.request = some req ∧
      req.limit = 100 ∧ req.offset = 0 ∧ req.order = "id desc" ∧
      req.method = "search_read" ∧ req.args = [[]] ∧
      (([] : List String) = [] → req.fields = none) ∧
      (([] : List String) ≠ [] → req.fields = some []) :=
  C5_query_parameter_defaults ctx0 cfg0 (some 1) "sale.order" {} SearchEvent.timeout
    (by decide)

/-- C5 counterexample to the claim as stated: a user-supplied limit of 5000
reaches the remote call unchanged, exceeding the documented cap of 1000 —
`searchRead` enforces no cap. -/
theorem C5_limit_cap_counterexample :
    ((searchRead ctx0 cfg0 (some 1) [] "sale.order" { limit := some 5000 }
        SearchEvent.timeout).map (fun r => r.request.map (fun q => q.limit))) =
      some (some 5000) ∧ (1000 : Int) < 5000 :=
  ⟨rfl, by decide⟩

/-- C6: probe outcome classification by status — 200/400/500 succeed with
status, content type and header set; 405 fails with the distinct
method-not-allowed message (different from every generic-status message);
any other status fails with the generic check-whether-enabled message; a
network error or the 10000 ms timeout fails with a transport-specific
message. -/
theorem C6_probe_classification (res : ProbeResponse) (emsg : String) :
    (res.statusCode = 200 ∨ res.statusCode = 400 ∨ res.statusCode = 500 →
      testHttpEndpoint (ProbeEvent.response res) =
        OdooResponse.ok { status := res.statusCode,
                          contentType := contentTypeOf res.headers,
                          headers := res.headers }) ∧
    (res.statusCode = 405 →
      testHttpEndpoint (ProbeEvent.response res) = OdooResponse.fail http405Err) ∧
    (∀ msg : String, http405Err ≠ httpGenericErr 405 msg) ∧
    (res.statusCode ≠ 200 → res.statusCode ≠ 400 → res.statusCode ≠ 500 →
      res.statusCode ≠ 405 →
      testHttpEndpoint (ProbeEvent.response res) =
        OdooResponse.fail (httpGenericErr res.statusCode res.statusMessage)) ∧
    testHttpEndpoint (ProbeEvent.error emsg) = OdooResponse.fail (httpReqFailedErr emsg) ∧
    testHttpEndpoint ProbeEvent.timeout = OdooResponse.fail httpTimeoutErr ∧
    (∀ (u : URLParts) (path : String), (testHttpEndpointOptions u path).timeoutMs = 10000) := by
  refine ⟨?_, ?_, ?_, ?_, rfl, rfl, fun _ _ => rfl⟩
  · intro h
    simp only [testHttpEndpoint]
    rw [if_pos h]
  · intro h
    simp only [testHttpEndpoint]
    rw [if_neg (by simp [h]), if_pos h]
  · intro msg0 hcontra
    have hd := congrArg String.data hcontra
    have hgd : (httpGenericErr 405 msg0).data =
        ("HTTP ".data ++ ((toString (405 : Nat)).data ++ (": ".data ++ (msg0.data ++
          ". Check if XML-RPC is enabled on this Odoo instance.".data)))) := by
      simp [httpGenericErr, String.data_append]
    rw [hgd] at hd
    have hd2 : http405Err.data =
        (("HTTP ".data ++ (toString (405 : Nat)).data ++ ": ".data ++ msg0.data)) ++
          ". Check if XML-RPC is enabled on this Odoo instance.".data := by
      rw [hd]
      simp [List.append_assoc]
    have hrev := rev_pre_of_append_eq _ _ _ hd2
    rw [show List.isPrefixOf
        (". Check if XML-RPC is enabled on this Odoo instance.".data.reverse)
        (http405Err.data.reverse) = false from by decide] at hrev
    exact Bool.noConfusion hrev
  · intro h200 h400 h500 h405
    simp only [testHttpEndpoint]
    rw [if_neg (by simp [h200, h400, h500]), if_neg h405]

/-- Witness for C6 at concrete 405 and 200 responses. -/
theorem C6_probe_classification_witness :
    testHttpEndpoint (ProbeEvent.response
      { statusCode := 405, statusMessage := "Method Not Allowed", headers := [] }) =
      OdooResponse.fail http405Err ∧
    testHttpEndpoint (ProbeEvent.response
      { statusCode := 200, statusMessage := "OK",
        headers := [("content-type", "text/xml")] }) =
      OdooResponse.ok { status := 200, contentType := some "text/xml",
                        headers := [("content-type", "text/xml")] } :=
  ⟨(C6_probe_classification
      { statusCode := 405, statusMessage := "Method Not Allowed", headers := [] } "").2.1 rfl,
   (C6_probe_classification
      { statusCode := 200, statusMessage := "OK",
        headers := [("content-type", "text/xml")] } "").1 (Or.inl rfl)⟩

/-- C7: the diagnostic sub-steps never throw past their boundary —
`inspectResponseBody` always resolves to a string (the body, or a placeholder
on error or timeout) and `testHttpEndpoint` resolves to a failure Operation
Outcome on network error or timeout, so classification always completes. -/
theorem C7_diagnostic_substeps_total :
    (∀ s : String, inspectResponseBody (FetchEvent.body s) = s) ∧
    inspectResponseBody FetchEvent.error = "Unable to fetch response body" ∧
    inspectResponseBody FetchEvent.timeout = "Response body fetch timed out" ∧
    (∀ e : String, testHttpEndpoint (ProbeEvent.error e) =
      OdooResponse.fail (httpReqFailedErr e)) ∧
    (∀ e : String, (testHttpEndpoint (ProbeEvent.error e)).success = false) ∧
    testHttpEndpoint ProbeEvent.timeout = OdooResponse.fail httpTimeoutErr ∧
    (testHttpEndpoint ProbeEvent.timeout).success = false :=
  ⟨fun _ => rfl, rfl, rfl, fun _ => rfl, fun _ => rfl, rfl, rfl⟩

/-- C8: the Endpoint Resolver is deterministic (it is a pure function of its
input) and its suggestion list never contains duplicates. -/
theorem C8_resolver_deterministic_nodup (parse : String → Option URLParts) (u : String) :
    validateAndSuggestUrls parse u = validateAndSuggestUrls parse u ∧
    ((validateAndSuggestUrls parse u).2).Nodup := by
  refine ⟨rfl, ?_⟩
  unfold validateAndSuggestUrls
  cases parse u with
  | some url => exact setDedup_nodup _
  | none => exact setDedup_nodup _

/-- C9 (amended): an address that fails to parse is marked invalid; when it
does not start with `http` the resolver suggests exactly the secure-scheme
and default-port prefixed variants with the standard sub-path, but when it
does start with `http` it produces no suggestions at all. -/
theorem C9_unparseable_address (parse : String → Option URLParts) (u : String)
    (h : parse u = none) :
    (validateAndSuggestUrls parse u).1 = false ∧
    (strHasPre "http" u = false →
      (validateAndSuggestUrls parse u).2 =
        ["https://" ++ u ++ "/xmlrpc/2/common",
         "http://" ++ u ++ ":8069/xmlrpc/2/common"]) ∧
    (strHasPre "http" u = true → (validateAndSuggestUrls parse u).2 = []) := by
  unfold validateAndSuggestUrls
  rw [h]
  refine ⟨rfl, ?_, ?_⟩
  · intro hs
    simp only [hs]
    show setDedup _ = _
    exact setDedup_pair _ _ (https_http_ne u _ _)
  · intro hs
    simp [hs, setDedup]

/-- Witness for C9 at a concrete unparseable plain host name. -/
theorem C9_unparseable_address_witness :
    (validateAndSuggestUrls (fun _ => none) "acme.example.com").1 = false ∧
    (validateAndSuggestUrls (fun _ => none) "acme.example.com").2 =
      ["https://" ++ "acme.example.com" ++ "/xmlrpc/2/common",
       "http://" ++ "acme.example.com" ++ ":8069/xmlrpc/2/common"] :=
  ⟨(C9_unparseable_address (fun _ => none) "acme.example.com" rfl).1,
   (C9_unparseable_address (fun _ => none) "acme.example.com" rfl).2.1 (by decide)⟩

/-- C9 counterexample to the claim as stated: `new URL("httpfoo")` throws
(no scheme separator), and since the input starts with `http` the catch
branch pushes nothing — the input is marked invalid but the claimed
scheme-prefix suggestions are absent. -/
theorem C9_http_prefix_counterexample :
    (validateAndSuggestUrls (fun _ => none) "httpfoo").1 = false ∧
    (validateAndSuggestUrls (fun _ => none) "httpfoo").2 = [] ∧
    ((validateAndSuggestUrls (fun _ => none) "httpfoo").2.contains
      "https://httpfoo/xmlrpc/2/common") = false := by
  have hs : strHasPre "http" "httpfoo" = true := by decide
  have h2 : (validateAndSuggestUrls (fun _ => none) "httpfoo").2 = [] := by
    simp [validateAndSuggestUrls, hs, setDedup]
  exact ⟨rfl, h2, by rw [h2]; rfl⟩

/-- C10: with the `http:` scheme and no parseable non-zero port, both the
probe and the body fetch connect to port 8069 (not the scheme default 80);
with `https:` they connect to 443; an explicit parseable non-zero port is
used as given. -/
theorem C10_port_defaults (u : URLParts) (path : String) :
    (u.protocol = "http:" → jsParseInt u.port = none →
      (testHttpEndpointOptions u path).port = 8069 ∧
      (inspectResponseBodyOptions u path).port = 8069) ∧
    (u.protocol = "http:" → jsParseInt u.port = some 0 →
      (testHttpEndpointOptions u path).port = 8069 ∧
      (inspectResponseBodyOptions u path).port = 8069) ∧
    (u.protocol = "https:" → jsParseInt u.port = none →
      (testHttpEndpointOptions u path).port = 443 ∧
      (inspectResponseBodyOptions u path).port = 443) ∧
    (u.protocol = "https:" → jsParseInt u.port = some 0 →
      (testHttpEndpointOptions u path).port = 443 ∧
      (inspectResponseBodyOptions u path).port = 443) ∧
    (∀ n : Int, jsParseInt u.port = some n → n ≠ 0 →
      (testHttpEndpointOptions u path).port = n ∧
      (inspectResponseBodyOptions u path).port = n) := by
  refine ⟨?_, ?_, ?_, ?_, ?_⟩
  · intro hp hport
    constructor <;>
      simp [testHttpEndpointOptions, inspectResponseBodyOptions, resolvePort, hp, hport]
  · intro hp hport
    constructor <;>
      simp [testHttpEndpointOptions, inspectResponseBodyOptions, resolvePort, hp, hport]
  · intro hp hport
    constructor <;>
      simp [testHttpEndpointOptions, inspectResponseBodyOptions, resolvePort, hp, hport]
  · intro hp hport
    constructor <;>
      simp [testHttpEndpointOptions, inspectResponseBodyOptions, resolvePort, hp, hport]
  · intro n hport hn
    constructor <;>
      simp [testHttpEndpointOptions, inspectResponseBodyOptions, resolvePort, hport, hn]

/-- Witness for C10 at concrete portless http and https addresses. -/
theorem C10_port_defaults_witness :
    (testHttpEndpointOptions
      { protocol := "http:", hostname := "h", port := "", pathname := "/" } "/p").port =
        8069 ∧
    (inspectResponseBodyOptions
      { protocol := "https:", hostname := "h", port := "", pathname := "/" } "/p").port =
        443 :=
  ⟨((C10_port_defaults
      { protocol := "http:", hostname := "h", port := "", pathname := "/" } "/p").1
      rfl rfl).1,
   (((C10_port_defaults
      { protocol := "https:", hostname := "h", port := "", pathname := "/" } "/p").2.2.1)
      rfl rfl).2⟩
